import Mathlib

/-!
Verification development for the colbin recruitment-platform backend.

The embedding translates the TypeScript backend into Lean:
* `src/models/User.ts` (mongoose schema, bcrypt pre-save hook, `comparePassword`),
* `src/controllers/authController.ts` (`registerValidation`, `loginValidation`,
  `register`, `login`),
* `src/controllers/profileController.ts` (`updateProfileValidation`,
  `updateProfile`, `deleteProfile`),
* `src/middleware/auth.ts` (`authenticate`, `optionalAuth`).

External libraries are modelled by their documented functional contracts:
* bcryptjs: an idealized salted one-way hash.  `bcrypt.hash(pw, salt)` is an
  injective function of `(salt, pw)` carrying the salt in the stored string
  (real format `$2b$12$<salt><digest>`); `bcrypt.compare(candidate, stored)`
  re-hashes `candidate` with the salt parameters embedded in `stored` and
  compares.  Salts produced by `genSalt` never contain the char `$` (base64).
* jsonwebtoken: a signed token is a payload plus the signing secret; any other
  bit pattern is malformed.  `jwt.verify` succeeds exactly when the secret
  matches and the current time is strictly before `exp`; `jwt.sign` with
  `expiresIn` sets `exp = iat + duration`.
* mongoose: document validation (setters, `required`, `min`/`max`, `enum`,
  custom validators with `this` bound to the document) runs on `save` before
  the user pre-save hooks; `findByIdAndUpdate` with `runValidators: true` runs
  validators only on the updated paths, skips `required`, and runs custom
  validators without a document context, so a `this.field` read inside such a
  validator yields `undefined` (JS: comparisons with `undefined` are false and
  `undefined === 'Yes'` is false).
* express-validator: a chain marked `.optional()` is skipped entirely when the
  field is absent from the body; sanitizers mutate the body for later readers;
  validator.js `isEmail` is modelled by the file's own explicit e-mail regex
  (applied by a `.custom` step right after it) and `normalizeEmail` /
  mongoose's `lowercase: true` by lower-casing.

Strings are modelled as `List Char` (`Str`); dates already parsed by the JSON
layer are calendar triples; numbers in request bodies are `Rat`.
-/

/-- JS strings, modelled as lists of characters. -/
abbrev Str := List Char

/-- The apostrophe character. -/
def apos : Char := Char.ofNat 39

/-- The backtick character. -/
def btickChar : Char := Char.ofNat 96

/-- The dollar character. -/
def dollar : Char := Char.ofNat 36

/-- The opening curly brace character. -/
def lbraceChar : Char := Char.ofNat 123

/-- The closing curly brace character. -/
def rbraceChar : Char := Char.ofNat 125

/-- JS `String.prototype.trim` / mongoose `trim: true` setter / express
`.trim()`: drop whitespace from both ends. -/
def trimChars (s : Str) : Str :=
  ((s.dropWhile Char.isWhitespace).reverse.dropWhile Char.isWhitespace).reverse

/-- Lower-casing, modelling validator.js `normalizeEmail` and mongoose
`lowercase: true`. -/
def lowerChars (s : Str) : Str := s.map Char.toLower

/-- A calendar date as produced by `new Date(...)` on an ISO date string. -/
structure DateT where
  y : Int
  m : Int
  d : Int
  deriving DecidableEq, Repr

/-- The age computation shared by the `dob` validators in `User.ts` and
`profileController.ts`: year difference, decremented when the birthday has not
yet occurred this year. -/
def ageAt (today dob : DateT) : Int :=
  let age := today.y - dob.y
  let monthDiff := today.m - dob.m
  if monthDiff < 0 ∨ (monthDiff = 0 ∧ today.d < dob.d) then age - 1 else age

/-- `dob` validator: age between 18 and 100. -/
def dobAgeOk (today dob : DateT) : Bool :=
  decide (18 ≤ ageAt today dob ∧ ageAt today dob ≤ 100)

/-! ## bcrypt model -/

/-- The fixed `$2b$12$` prefix of a bcrypt hash with cost 12. -/
def bcryptMagic : Str := [dollar, '2', 'b', dollar, '1', '2', dollar]

/-- Idealized `bcrypt.hash(pw, salt)`: the stored string carries the cost
prefix, the salt and the (here: injectively encoded) digest of the password.
Salts produced by `bcrypt.genSalt` are base64 and never contain `$`. -/
def bcryptHash (salt pw : Str) : Str :=
  bcryptMagic ++ salt ++ dollar :: pw

/-- The salt parameters embedded in a stored bcrypt hash: the characters after
the cost prefix, up to the digest. -/
def bcryptSaltOf (stored : Str) : Str :=
  (stored.drop bcryptMagic.length).takeWhile (fun c => c ≠ dollar)

/-- Idealized `bcrypt.compare(candidate, stored)`: re-hash the candidate with
the salt parameters embedded in `stored` and compare.  Total: returns `false`
on mismatch, never throws. -/
def bcryptCompare (candidate stored : Str) : Bool :=
  stored == bcryptHash (bcryptSaltOf stored) candidate

/-! ## jsonwebtoken model -/

/-- The payload signed by `jwt.sign({ userId, email }, secret, { expiresIn })`:
jsonwebtoken adds the issue time `iat` and the expiry `exp = iat + duration`
(seconds). -/
structure JwtPayload where
  userId : Nat
  email : Str
  iat : Nat
  exp : Nat
  deriving DecidableEq, Repr

/-- A bearer token as seen by the middleware: either a well-formed token signed
with some secret, or arbitrary malformed bytes. -/
inductive TokenBits where
  | signed (payload : JwtPayload) (secret : Str)
  | malformed (raw : Str)
  deriving DecidableEq, Repr

/-- `jwt.sign({ userId, email }, secret, { expiresIn: dur })` at time `now`. -/
def jwtSign (userId : Nat) (email : Str) (secret : Str) (now dur : Nat) : TokenBits :=
  .signed ⟨userId, email, now, now + dur⟩ secret

/-- `jwt.verify(token, secret)` at time `now`: `some payload` on success,
`none` when the library throws (malformed, bad signature, or expired —
jsonwebtoken rejects once `now ≥ exp`). -/
def jwtVerify (secret : Str) (now : Nat) : TokenBits → Option JwtPayload
  | .malformed _ => none
  | .signed p s => if s = secret ∧ now < p.exp then some p else none

/-! ## User records and the credential store -/

/-- A stored user document (`User.ts` schema).  `password` holds the bcrypt
hash after the pre-save hook.  Fields without `required` in the schema are
`Option`s; `skills` defaults to the empty array. -/
structure UserRecord where
  id : Nat
  name : Str
  email : Str
  password : Str
  designation : Str
  firstName : Str
  lastName : Str
  country : Str
  phone : Str
  gender : Str
  dob : DateT
  totalExperience : Rat
  currentCTC : Rat
  expectedCTC : Rat
  noticePeriod : Str
  noticePeriodDays : Option Rat
  bio : Option Str
  skills : List Str
  experience : Option Str
  resumeUrl : Option Str
  avatar : Option Str
  isEmailVerified : Bool
  deriving DecidableEq, Repr

/-- The credential store: the `users` collection. -/
abbrev Store := List UserRecord

/-- `User.findById(id)`. -/
def findById (store : Store) (id : Nat) : Option UserRecord :=
  store.find? (fun u => u.id = id)

/-- `User.findOne({ email })`. -/
def findOne (store : Store) (email : Str) : Option UserRecord :=
  store.find? (fun u => u.email = email)

/-- `.select('-password')` / `toJSON`: the record with the password hash
removed. -/
def stripPassword (u : UserRecord) : UserRecord := { u with password := [] }

/-- `user.comparePassword(candidate)` from `User.ts`:
`bcrypt.compare(candidatePassword, this.password)`. -/
def comparePassword (u : UserRecord) (candidate : Str) : Bool :=
  bcryptCompare candidate u.password

/-! ## Authentication middleware (`middleware/auth.ts`) -/

/-- The shapes the `Authorization` header handling distinguishes:
absent, present but not `Bearer `-prefixed, `Bearer ` with an empty token, or
`Bearer <token>`. -/
inductive AuthHeader where
  | missing
  | notBearer (raw : Str)
  | bearerEmpty
  | bearer (t : TokenBits)
  deriving DecidableEq, Repr

/-- Outcome of an express middleware: either `next()` was invoked (with the
identity attached to `req.user`, if any), or a response was sent. -/
inductive MidResult where
  | next (user : Option UserRecord)
  | respond (status : Nat) (msg : Str)
  deriving DecidableEq, Repr

/-- Message of the 401 sent when no token is provided. -/
def msgNoToken : Str := "Access denied. No token provided.".data

/-- Message of the 401 sent for an empty token. -/
def msgBadFormat : Str := "Access denied. Invalid token format.".data

/-- Message of the 401 sent when `jwt.verify` throws. -/
def msgTokenInvalid : Str := "Token is not valid.".data

/-- Message of the 401 sent when the token's user no longer exists. -/
def msgUserNotFound : Str := "Token is not valid. User not found.".data

/-- `authenticate` from `middleware/auth.ts`. -/
def authenticate (store : Store) (secret : Str) (now : Nat) (h : AuthHeader) :
    MidResult :=
  match h with
  | .missing => .respond 401 msgNoToken
  | .notBearer _ => .respond 401 msgNoToken
  | .bearerEmpty => .respond 401 msgBadFormat
  | .bearer t =>
    match jwtVerify secret now t with
    | none => .respond 401 msgTokenInvalid
    | some p =>
      match findById store p.userId with
      | none => .respond 401 msgUserNotFound
      | some u => .next (some (stripPassword u))

/-- `optionalAuth` from `middleware/auth.ts`: every branch calls `next()`. -/
def optionalAuth (store : Store) (secret : Str) (now : Nat) (h : AuthHeader) :
    MidResult :=
  match h with
  | .missing => .next none
  | .notBearer _ => .next none
  | .bearerEmpty =>
    -- an empty token reaches jwt.verify, which throws; the catch calls next()
    .next none
  | .bearer t =>
    match jwtVerify secret now t with
    | none => .next none
    | some p =>
      match findById store p.userId with
      | none => .next none
      | some u => .next (some (stripPassword u))

/-! ## Character classes and recognizers for the validation regexes -/

/-- Local-part character class of the e-mail regex shared by
`registerValidation`, `loginValidation` and the `User.ts` schema `match`. -/
def isEmailLocalChar (c : Char) : Bool :=
  c.isAlpha || c.isDigit ||
    (['.', '!', '#', dollar, '%', '&', apos, '*', '+', '/', '=', '?', '^', '_',
      btickChar, lbraceChar, '|', rbraceChar, '~', '-'].contains c)

/-- Characters allowed inside a domain label. -/
def isDomainLabelChar (c : Char) : Bool := c.isAlphanum || c = '-'

/-- One domain label of the e-mail regex: a leading alphanumeric, then
optionally up to 61 label characters followed by a trailing alphanumeric. -/
def isDomainLabel (l : Str) : Bool :=
  match l with
  | [] => false
  | c :: rest =>
    c.isAlphanum && decide (rest.length ≤ 62) &&
      (match rest.getLast? with
       | none => true
       | some lastc => rest.dropLast.all isDomainLabelChar && lastc.isAlphanum)

/-- The explicit e-mail regex of the controllers and the schema: local part,
one `@`, dot-separated domain labels. -/
def emailRegexOk (s : Str) : Bool :=
  match s.splitOn '@' with
  | [localPart, domain] =>
    !localPart.isEmpty && localPart.all isEmailLocalChar &&
      (domain.splitOn '.').all isDomainLabel
  | _ => false

/-- Character class of the name regex: letters, whitespace, hyphens,
apostrophes. -/
def isNameChar (c : Char) : Bool :=
  c.isAlpha || c.isWhitespace || c = apos || c = '-'

/-- The name / firstName / lastName regex. -/
def nameRegexOk (s : Str) : Bool := !s.isEmpty && s.all isNameChar

/-- Phone punctuation accepted by the schema phone regex. -/
def isPhoneBodyChar (c : Char) : Bool :=
  c.isDigit || c.isWhitespace || c = '-' || c = '(' || c = ')' || c = '.'

/-- The schema phone regex: optional leading `+`, then phone characters. -/
def phoneRegexOk (s : Str) : Bool :=
  match s with
  | '+' :: rest => !rest.isEmpty && rest.all isPhoneBodyChar
  | _ => !s.isEmpty && s.all isPhoneBodyChar

/-- Modelled external: validator.js `isMobilePhone(value, 'any')`, as a generic
international phone shape with 10 to 15 digits. -/
def isMobilePhoneAny (s : Str) : Bool :=
  phoneRegexOk s &&
    decide (10 ≤ (s.filter Char.isDigit).length ∧ (s.filter Char.isDigit).length ≤ 15)

/-- The `registerValidation` phone sanitizer: keep digits, whitespace, hyphens,
parentheses, plus signs and dots, then trim. -/
def sanitizePhone (s : Str) : Str :=
  trimChars (s.filter (fun c =>
    c.isDigit || c.isWhitespace || c = '-' || c = '(' || c = ')' || c = '+' || c = '.'))

/-- The password special-character class `[@$!%*?&]`. -/
def isPwSpecial (c : Char) : Bool :=
  c = '@' || c = dollar || c = '!' || c = '%' || c = '*' || c = '?' || c = '&'

/-- The character class `[A-Za-z\d@$!%*?&]` of the password regex. -/
def isPwClassChar (c : Char) : Bool := c.isAlpha || c.isDigit || isPwSpecial c

/-- The `registerValidation` password regex: anchored at the start, four
containment lookaheads, then one class character. -/
def passwordRegexOk (s : Str) : Bool :=
  s.any Char.isLower && s.any Char.isUpper && s.any Char.isDigit &&
    s.any isPwSpecial &&
    (match s with
     | [] => false
     | c :: _ => isPwClassChar c)

/-- The common weak passwords list shared by `registerValidation` and the
schema password validator. -/
def commonPasswords : List Str :=
  ["password".data, "password123".data, "123456".data, "qwerty".data,
   "abc123".data, "admin".data, "letmein".data]

/-- The schema password strength validator from `User.ts`. -/
def passwordSchemaValidator (s : Str) : Bool :=
  s.any Char.isUpper && s.any Char.isLower && s.any Char.isDigit &&
    s.any isPwSpecial && !(commonPasswords.contains (lowerChars s))

/-- `value.replace(/\s+/g, ' ')`: collapse whitespace runs to single spaces.
The flag records whether the previous character was whitespace. -/
def collapseWsAux : List Char → Bool → List Char
  | [], _ => []
  | c :: rest, prevWs =>
    if c.isWhitespace then
      if prevWs then collapseWsAux rest true
      else ' ' :: collapseWsAux rest true
    else c :: collapseWsAux rest false

/-- Collapse whitespace runs to single spaces. -/
def collapseWs (s : Str) : Str := collapseWsAux s false

/-- JS `\w`: letters, digits, underscore. -/
def isWordChar (c : Char) : Bool := c.isAlphanum || c = '_'

/-- `value.replace(/\b\w/g, char => char.toUpperCase())`: upper-case every
word character at a word boundary.  The flag records whether the previous
character was a word character. -/
def capWordsAux : List Char → Bool → List Char
  | [], _ => []
  | c :: rest, prevWord =>
    (if isWordChar c && !prevWord then c.toUpper else c)
      :: capWordsAux rest (isWordChar c)

/-- Upper-case word-initial characters. -/
def capWords (s : Str) : Str := capWordsAux s false

/-- The `registerValidation` name sanitizer (applied after the `.trim()`
sanitizer): collapse spaces, trim, capitalize each word. -/
def sanitizeName (s : Str) : Str := capWords (trimChars (collapseWs s))

/-- Models `Number(value.toFixed(1)) === value`: exact to one decimal place,
i.e. an integer multiple of 1/10, i.e. the reduced denominator divides 10. -/
def oneDecimal (v : Rat) : Bool := 10 % v.den == 0

/-- The `designation` enum. -/
def designations : List Str :=
  ["Mr".data, "Mrs".data, "Ms".data, "Dr".data, "Prof".data]

/-- The `gender` enum. -/
def genders : List Str :=
  ["Male".data, "Female".data, "Non-binary".data, "Prefer not to say".data,
   "Other".data]

/-! ## Request bodies and response envelope -/

/-- The registration request body (`IRegisterRequest`): any field may be
absent.  Values are already JSON-typed. -/
structure RegisterRequest where
  name : Option Str
  email : Option Str
  password : Option Str
  phone : Option Str
  designation : Option Str
  firstName : Option Str
  lastName : Option Str
  country : Option Str
  gender : Option Str
  dob : Option DateT
  totalExperience : Option Rat
  currentCTC : Option Rat
  expectedCTC : Option Rat
  noticePeriod : Option Str
  noticePeriodDays : Option Rat
  bio : Option Str
  skills : Option (List Str)
  experience : Option Str
  resumeUrl : Option Str
  avatar : Option Str
  deriving DecidableEq, Repr

/-- The login request body (`ILoginRequest`). -/
structure LoginRequest where
  email : Option Str
  password : Option Str
  deriving DecidableEq, Repr

/-- The JSON response envelope: HTTP status, `success`, `message`, optional
`errors` array of field errors, optional user payload (always without the
password hash), optional `token`. -/
structure ApiResponse where
  status : Nat
  success : Bool
  message : Str
  errors : List (Str × Str)
  user : Option UserRecord
  token : Option TokenBits
  deriving DecidableEq, Repr

/-- A failure response with no errors array. -/
def errResponse (status : Nat) (msg : Str) : ApiResponse :=
  ⟨status, false, msg, [], none, none⟩

/-- The 400 response produced when `validationResult(req)` is non-empty. -/
def valResponse (errs : List (Str × Str)) : ApiResponse :=
  ⟨400, false, "Validation failed".data, errs, none, none⟩

/-! ## express-validator chains of `authController.ts` -/

/-- The `body('name')` chain of `registerValidation`: trim, length 2 to 50,
name regex.  A missing required field fails with the generic message. -/
def nameChainErrs (v : Option Str) : List (Str × Str) :=
  match v with
  | none => [("name".data, "Invalid value".data)]
  | some n =>
    let t := trimChars n
    (if decide (2 ≤ t.length ∧ t.length ≤ 50) then []
     else [("name".data, "Name must be between 2 and 50 characters".data)]) ++
    (if nameRegexOk t then []
     else [("name".data,
            "Name can only contain letters, spaces, hyphens, and apostrophes".data)])

/-- The `body('email')` chain shared by `registerValidation` and
`loginValidation`: `isEmail` (modelled by the explicit regex of the following
`.custom` step), `normalizeEmail`, max length 254, explicit regex. -/
def emailChainErrs (v : Option Str) : List (Str × Str) :=
  match v with
  | none => [("email".data, "Invalid value".data)]
  | some e =>
    let ne := lowerChars e
    (if emailRegexOk e then []
     else [("email".data, "Please provide a valid email address".data)]) ++
    (if decide (ne.length ≤ 254) then []
     else [("email".data, "Email address is too long".data)]) ++
    (if emailRegexOk ne then []
     else [("email".data, "Please provide a valid email address".data)])

/-- The `body('password')` chain of `registerValidation`: length 8 to 128,
anchored strength regex, common-password rejection. -/
def passwordChainErrs (v : Option Str) : List (Str × Str) :=
  match v with
  | none => [("password".data, "Invalid value".data)]
  | some p =>
    (if decide (8 ≤ p.length ∧ p.length ≤ 128) then []
     else [("password".data,
            "Password must be between 8 and 128 characters long".data)]) ++
    (if passwordRegexOk p then []
     else [("password".data,
            "Password must contain at least one uppercase letter, one lowercase letter, one number, and one special character (@$!%*?&)".data)]) ++
    (if commonPasswords.contains (lowerChars p) then
      [("password".data,
        "This password is too common. Please choose a more secure password".data)]
     else [])

/-- The `body('phone')` chain of `registerValidation`: optional, so skipped
entirely when absent; `isMobilePhone('any')`, then 10 to 15 digits. -/
def phoneChainErrs (v : Option Str) : List (Str × Str) :=
  match v with
  | none => []
  | some p =>
    (if isMobilePhoneAny p then []
     else [("phone".data, "Please provide a valid phone number".data)]) ++
    (if decide (10 ≤ (p.filter Char.isDigit).length ∧
                (p.filter Char.isDigit).length ≤ 15) then []
     else [("phone".data, "Phone number must be between 10 and 15 digits".data)])

/-- `validationResult(req)` for `registerValidation`. -/
def registerExpressErrors (r : RegisterRequest) : List (Str × Str) :=
  nameChainErrs r.name ++ emailChainErrs r.email ++
    passwordChainErrs r.password ++ phoneChainErrs r.phone

/-- `validationResult(req)` for `loginValidation`: the e-mail chain plus
`notEmpty` on the password (the `.trim()` sanitizer runs after the check). -/
def loginExpressErrors (r : LoginRequest) : List (Str × Str) :=
  emailChainErrs r.email ++
    (match r.password with
     | none => [("password".data, "Invalid value".data)]
     | some p =>
       if p.isEmpty then [("password".data, "Password is required".data)] else [])

/-! ## Mongoose document validation (`User.ts` schema) -/

/-- The new `User({...})` document before it is saved: fields as assigned by
the `register` controller, with schema setters (trim, lowercase) applied on
assignment. -/
structure PreDoc where
  name : Option Str
  email : Option Str
  password : Option Str
  designation : Option Str
  firstName : Option Str
  lastName : Option Str
  country : Option Str
  phone : Option Str
  gender : Option Str
  dob : Option DateT
  totalExperience : Option Rat
  currentCTC : Option Rat
  expectedCTC : Option Rat
  noticePeriod : Option Str
  noticePeriodDays : Option Rat
  bio : Option Str
  skills : List Str
  experience : Option Str
  resumeUrl : Option Str
  avatar : Option Str
  deriving DecidableEq, Repr

/-- Mongoose `required` on a string path: fails when the value is absent or
empty; otherwise the path validators run. -/
def reqStr (field : Str) (msg : Str) (v : Option Str)
    (checks : Str → List (Str × Str)) : List (Str × Str) :=
  match v with
  | none => [(field, msg)]
  | some s => if s.isEmpty then [(field, msg)] else checks s

/-- The `noticePeriod` schema path checks: required, `enum: ['Yes', 'No']`. -/
def noticePeriodPathErrs (np : Option Str) : List (Str × Str) :=
  reqStr "noticePeriod".data "Notice period status is required".data np (fun s =>
    if s == "Yes".data || s == "No".data then []
    else [("noticePeriod".data, "Notice period must be either Yes or No".data)])

/-- The `noticePeriodDays` schema path checks at `save` time:
`required: function() { return this.noticePeriod === 'Yes'; }` (the default
mongoose required message), `min: 0`, `max: 365`, and the custom validator
that demands a defined nonnegative value when `noticePeriod` is Yes. -/
def noticePeriodDaysPathErrs (np : Option Str) (v : Option Rat) :
    List (Str × Str) :=
  match v with
  | none =>
    if np = some ("Yes".data) then
      [("noticePeriodDays".data, "Path `noticePeriodDays` is required.".data)]
    else []
  | some v =>
    (if decide (0 ≤ v) then []
     else [("noticePeriodDays".data, "Notice period days cannot be negative".data)]) ++
    (if decide (v ≤ 365) then []
     else [("noticePeriodDays".data, "Notice period cannot exceed 365 days".data)]) ++
    (if (if np = some ("Yes".data) then decide (0 ≤ v) else true) then []
     else [("noticePeriodDays".data,
            "Notice period days is required when notice period is Yes".data)])

/-- Schema validation of the document on `save` (runs before the pre-save
hash hook), producing the `ValidationError` paths and messages. -/
def validateDoc (today : DateT) (d : PreDoc) : List (Str × Str) :=
  reqStr "name".data "Name is required".data d.name (fun s =>
    if decide (s.length ≤ 50) then []
    else [("name".data, "Name cannot exceed 50 characters".data)]) ++
  reqStr "email".data "Email is required".data d.email (fun s =>
    (if emailRegexOk s then []
     else [("email".data, "Please enter a valid email address".data)]) ++
    (if decide (s.length ≤ 254) then []
     else [("email".data, "Email address is too long".data)])) ++
  reqStr "password".data "Password is required".data d.password (fun s =>
    (if decide (8 ≤ s.length) then []
     else [("password".data, "Password must be at least 8 characters long".data)]) ++
    (if decide (s.length ≤ 128) then []
     else [("password".data, "Password cannot exceed 128 characters".data)]) ++
    (if passwordSchemaValidator s then []
     else [("password".data,
            "Password must contain at least one uppercase letter, one lowercase letter, one number, and one special character (@$!%*?&)".data)])) ++
  reqStr "designation".data "Designation is required".data d.designation (fun s =>
    if designations.contains s then []
    else [("designation".data,
           "Designation must be one of: Mr, Mrs, Ms, Dr, Prof".data)]) ++
  reqStr "firstName".data "First name is required".data d.firstName (fun s =>
    (if decide (2 ≤ s.length) then []
     else [("firstName".data, "First name must be at least 2 characters".data)]) ++
    (if decide (s.length ≤ 50) then []
     else [("firstName".data, "First name cannot exceed 50 characters".data)]) ++
    (if nameRegexOk s then []
     else [("firstName".data,
            "First name can only contain letters, spaces, hyphens, and apostrophes".data)])) ++
  reqStr "lastName".data "Last name is required".data d.lastName (fun s =>
    (if decide (2 ≤ s.length) then []
     else [("lastName".data, "Last name must be at least 2 characters".data)]) ++
    (if decide (s.length ≤ 50) then []
     else [("lastName".data, "Last name cannot exceed 50 characters".data)]) ++
    (if nameRegexOk s then []
     else [("lastName".data,
            "Last name can only contain letters, spaces, hyphens, and apostrophes".data)])) ++
  reqStr "country".data "Country is required".data d.country (fun s =>
    (if decide (2 ≤ s.length) then []
     else [("country".data, "Country must be at least 2 characters".data)]) ++
    (if decide (s.length ≤ 100) then []
     else [("country".data, "Country cannot exceed 100 characters".data)])) ++
  reqStr "phone".data "Phone number is required".data d.phone (fun s =>
    if decide (10 ≤ (s.filter Char.isDigit).length ∧
               (s.filter Char.isDigit).length ≤ 15) ∧ phoneRegexOk s = true then []
    else [("phone".data, "Please enter a valid phone number (10-15 digits)".data)]) ++
  reqStr "gender".data "Gender is required".data d.gender (fun s =>
    if genders.contains s then []
    else [("gender".data,
           "Gender must be one of: Male, Female, Non-binary, Prefer not to say, Other".data)]) ++
  (match d.dob with
   | none => [("dob".data, "Date of birth is required".data)]
   | some dt =>
     if dobAgeOk today dt then []
     else [("dob".data, "Age must be between 18 and 100 years".data)]) ++
  (match d.totalExperience with
   | none => [("totalExperience".data, "Total experience is required".data)]
   | some v =>
     (if decide (0 ≤ v) then []
      else [("totalExperience".data, "Experience cannot be negative".data)]) ++
     (if decide (v ≤ 50) then []
      else [("totalExperience".data, "Experience cannot exceed 50 years".data)]) ++
     (if oneDecimal v then []
      else [("totalExperience".data,
             "Experience must have at most 1 decimal place".data)])) ++
  (match d.currentCTC with
   | none => [("currentCTC".data, "Current CTC is required".data)]
   | some v =>
     (if decide (0 ≤ v) then []
      else [("currentCTC".data, "Current CTC cannot be negative".data)]) ++
     (if decide (v ≤ 10000000) then []
      else [("currentCTC".data, "Current CTC cannot exceed 10,000,000".data)])) ++
  (match d.expectedCTC with
   | none => [("expectedCTC".data, "Expected CTC is required".data)]
   | some v =>
     (if decide (0 ≤ v) then []
      else [("expectedCTC".data, "Expected CTC cannot be negative".data)]) ++
     (if decide (v ≤ 10000000) then []
      else [("expectedCTC".data, "Expected CTC cannot exceed 10,000,000".data)]) ++
     -- `value >= this.currentCTC` with `this` the document being saved
     (if (match d.currentCTC with
          | some c => decide (c ≤ v)
          | none => false) then []
      else [("expectedCTC".data,
             "Expected CTC must be greater than or equal to current CTC".data)])) ++
  noticePeriodPathErrs d.noticePeriod ++
  noticePeriodDaysPathErrs d.noticePeriod d.noticePeriodDays ++
  (match d.bio with
   | none => []
   | some s =>
     if decide (s.length ≤ 500) then []
     else [("bio".data, "Bio cannot exceed 500 characters".data)]) ++
  (match d.experience with
   | none => []
   | some s =>
     if decide (s.length ≤ 1000) then []
     else [("experience".data,
            "Experience description cannot exceed 1000 characters".data)])

/-! ## `register` and `login` (`authController.ts`) -/

/-- The document the `register` controller builds from the (sanitized) body:
`new User({...})`, with schema setters applied on assignment. -/
def buildDoc (r : RegisterRequest) : PreDoc where
  name := r.name.map (fun n => trimChars (sanitizeName (trimChars n)))
  email := r.email.map (fun e => trimChars (lowerChars e))
  password := r.password
  designation := r.designation
  firstName := r.firstName.map trimChars
  lastName := r.lastName.map trimChars
  country := r.country.map trimChars
  phone := r.phone.map (fun p => trimChars (sanitizePhone p))
  gender := r.gender
  dob := r.dob
  totalExperience := r.totalExperience
  currentCTC := r.currentCTC
  expectedCTC := r.expectedCTC
  noticePeriod := r.noticePeriod
  noticePeriodDays := r.noticePeriodDays
  bio := r.bio.map trimChars
  skills := (r.skills.getD []).map trimChars
  experience := r.experience.map trimChars
  resumeUrl := r.resumeUrl.map trimChars
  avatar := r.avatar.map trimChars

/-- The stored record after a successful `save`: the validated document with a
fresh `_id`, the bcrypt hash from the pre-save hook, and the
`isEmailVerified` default.  The `getD` defaults are unreachable when
`validateDoc` reported no error (all required fields are then present). -/
def mkUser (freshId : Nat) (salt : Str) (d : PreDoc) : UserRecord where
  id := freshId
  name := d.name.getD []
  email := d.email.getD []
  password := bcryptHash salt (d.password.getD [])
  designation := d.designation.getD []
  firstName := d.firstName.getD []
  lastName := d.lastName.getD []
  country := d.country.getD []
  phone := d.phone.getD []
  gender := d.gender.getD []
  dob := d.dob.getD ⟨0, 0, 0⟩
  totalExperience := d.totalExperience.getD 0
  currentCTC := d.currentCTC.getD 0
  expectedCTC := d.expectedCTC.getD 0
  noticePeriod := d.noticePeriod.getD []
  noticePeriodDays := d.noticePeriodDays
  bio := d.bio
  skills := d.skills
  experience := d.experience
  resumeUrl := d.resumeUrl
  avatar := d.avatar
  isEmailVerified := false

/-- The `register` controller: express validation, duplicate-email check,
`save` (schema validation, then password hashing), token issuance.  A `save`
rejection lands in the catch block, which answers 500 with a generic
message. -/
def register (store : Store) (freshId : Nat) (salt secret : Str)
    (expDur now : Nat) (today : DateT) (r : RegisterRequest) :
    ApiResponse × Store :=
  let errs := registerExpressErrors r
  if errs.isEmpty then
    let email := lowerChars (r.email.getD [])
    match findOne store email with
    | some _ => (errResponse 400 ("User with this email already exists".data), store)
    | none =>
      let d := buildDoc r
      if (validateDoc today d).isEmpty then
        let u := mkUser freshId salt d
        (⟨201, true, "User registered successfully".data, [],
          some (stripPassword u),
          some (jwtSign u.id u.email secret now expDur)⟩,
         store ++ [u])
      else (errResponse 500 ("Server error during registration".data), store)
  else (valResponse errs, store)

/-- The `login` controller: express validation, lookup with the password hash
selected, `comparePassword`, then a token.  Both the unknown-e-mail case and
the wrong-password case answer 401 with the same generic message. -/
def login (store : Store) (secret : Str) (expDur now : Nat)
    (r : LoginRequest) : ApiResponse :=
  let errs := loginExpressErrors r
  if errs.isEmpty then
    let email := lowerChars (r.email.getD [])
    let pw := trimChars (r.password.getD [])
    match findOne store email with
    | none => errResponse 401 ("Invalid email or password".data)
    | some u =>
      if comparePassword u pw then
        ⟨200, true, "Login successful".data, [], some (stripPassword u),
         some (jwtSign u.id u.email secret now expDur)⟩
      else errResponse 401 ("Invalid email or password".data)
  else valResponse errs

/-! ## Profile update and delete (`profileController.ts`) -/

/-- A `PUT /profile` body: every allow-listed field, plus the two fields a
client can send but the allow-list excludes (`email`, `password`). -/
structure UpdateBody where
  name : Option Str
  designation : Option Str
  firstName : Option Str
  lastName : Option Str
  country : Option Str
  phone : Option Str
  gender : Option Str
  dob : Option DateT
  totalExperience : Option Rat
  currentCTC : Option Rat
  expectedCTC : Option Rat
  noticePeriod : Option Str
  noticePeriodDays : Option Rat
  bio : Option Str
  skills : Option (List Str)
  experience : Option Str
  resumeUrl : Option Str
  avatar : Option Str
  email : Option Str
  password : Option Str
  deriving DecidableEq, Repr

/-- The custom check of the `body('noticePeriodDays')` chain: it errors when
`noticePeriod` is "Yes" and the running value is undefined.  Because the chain
is `.optional()`, express-validator only runs it when the field is present, so
the condition can never fire. -/
def noticePeriodDaysCustomErr (np : Option Str) (v : Option Rat) :
    List (Str × Str) :=
  if np = some ("Yes".data) ∧ v = none then
    [("noticePeriodDays".data,
      "Notice period days is required when notice period is Yes".data)]
  else []

/-- `validationResult(req)` for `updateProfileValidation`: every chain is
`.optional()` and skipped when the field is absent. -/
def updateExpressErrors (today : DateT) (b : UpdateBody) : List (Str × Str) :=
  (match b.designation with
   | none => []
   | some s =>
     if designations.contains s then []
     else [("designation".data,
            "Designation must be one of: Mr, Mrs, Ms, Dr, Prof".data)]) ++
  (match b.firstName with
   | none => []
   | some n =>
     let t := trimChars n
     (if decide (2 ≤ t.length ∧ t.length ≤ 50) then []
      else [("firstName".data,
             "First name must be between 2 and 50 characters".data)]) ++
     (if nameRegexOk t then []
      else [("firstName".data,
             "First name can only contain letters, spaces, hyphens, and apostrophes".data)])) ++
  (match b.lastName with
   | none => []
   | some n =>
     let t := trimChars n
     (if decide (2 ≤ t.length ∧ t.length ≤ 50) then []
      else [("lastName".data,
             "Last name must be between 2 and 50 characters".data)]) ++
     (if nameRegexOk t then []
      else [("lastName".data,
             "Last name can only contain letters, spaces, hyphens, and apostrophes".data)])) ++
  (match b.country with
   | none => []
   | some n =>
     let t := trimChars n
     if decide (2 ≤ t.length ∧ t.length ≤ 100) then []
     else [("country".data, "Country must be between 2 and 100 characters".data)]) ++
  (match b.phone with
   | none => []
   | some p =>
     if isMobilePhoneAny p then []
     else [("phone".data, "Please provide a valid phone number".data)]) ++
  (match b.gender with
   | none => []
   | some s =>
     if genders.contains s then []
     else [("gender".data,
            "Gender must be one of: Male, Female, Non-binary, Prefer not to say, Other".data)]) ++
  (match b.dob with
   | none => []
   | some dt =>
     -- `isISO8601` holds for every parsed date; then the custom age check
     if dobAgeOk today dt then []
     else [("dob".data, "Age must be between 18 and 100 years".data)]) ++
  (match b.totalExperience with
   | none => []
   | some v =>
     (if decide (0 ≤ v ∧ v ≤ 50) then []
      else [("totalExperience".data,
             "Total experience must be between 0 and 50 years".data)]) ++
     (if oneDecimal v then []
      else [("totalExperience".data,
             "Experience must have at most 1 decimal place".data)])) ++
  (match b.currentCTC with
   | none => []
   | some v =>
     if decide (0 ≤ v ∧ v ≤ 10000000) then []
     else [("currentCTC".data,
            "Current CTC must be between 0 and 10,000,000".data)]) ++
  (match b.expectedCTC with
   | none => []
   | some v =>
     (if decide (0 ≤ v ∧ v ≤ 10000000) then []
      else [("expectedCTC".data,
             "Expected CTC must be between 0 and 10,000,000".data)]) ++
     -- `.custom`: error when currentCTC is also in the body and value < it
     (if (match b.currentCTC with
          | some c => decide (v < c)
          | none => false) then
       [("expectedCTC".data,
         "Expected CTC must be greater than or equal to current CTC".data)]
      else [])) ++
  (match b.noticePeriod with
   | none => []
   | some s =>
     if s == "Yes".data || s == "No".data then []
     else [("noticePeriod".data, "Notice period must be either Yes or No".data)]) ++
  (match b.noticePeriodDays with
   | none => []
   | some v =>
     -- `isInt({ min: 0, max: 365 })`
     (if decide (v.den = 1 ∧ 0 ≤ v ∧ v ≤ 365) then []
      else [("noticePeriodDays".data,
             "Notice period days must be between 0 and 365".data)]) ++
     noticePeriodDaysCustomErr b.noticePeriod (some v)) ++
  (match b.bio with
   | none => []
   | some s =>
     if decide ((trimChars s).length ≤ 500) then []
     else [("bio".data, "Bio cannot exceed 500 characters".data)]) ++
  (match b.skills with
   | none => []
   | some sk =>
     sk.flatMap (fun s =>
       if decide (1 ≤ (trimChars s).length ∧ (trimChars s).length ≤ 30) then []
       else [("skills".data,
              "Each skill must be between 1 and 30 characters".data)])) ++
  (match b.experience with
   | none => []
   | some s =>
     if decide ((trimChars s).length ≤ 1000) then []
     else [("experience".data,
            "Experience description cannot exceed 1000 characters".data)])

/-- Mongoose update validation under `findByIdAndUpdate(..., { runValidators:
true })`: validators run only on the paths present in the update, `required`
is skipped, and custom validators run without a document context — a
`this.field` read yields `undefined` there (mongoose: update validators cannot
access the document being updated). -/
def updateValidatorErrors (today : DateT) (b : UpdateBody) : List (Str × Str) :=
  (match b.name with
   | none => []
   | some n =>
     if decide ((trimChars n).length ≤ 50) then []
     else [("name".data, "Name cannot exceed 50 characters".data)]) ++
  (match b.designation with
   | none => []
   | some s =>
     if designations.contains s then []
     else [("designation".data,
            "Designation must be one of: Mr, Mrs, Ms, Dr, Prof".data)]) ++
  (match b.firstName with
   | none => []
   | some n =>
     let t := trimChars n
     (if decide (2 ≤ t.length ∧ t.length ≤ 50) then []
      else [("firstName".data, "First name must be at least 2 characters".data)]) ++
     (if nameRegexOk t then []
      else [("firstName".data,
             "First name can only contain letters, spaces, hyphens, and apostrophes".data)])) ++
  (match b.lastName with
   | none => []
   | some n =>
     let t := trimChars n
     (if decide (2 ≤ t.length ∧ t.length ≤ 50) then []
      else [("lastName".data, "Last name must be at least 2 characters".data)]) ++
     (if nameRegexOk t then []
      else [("lastName".data,
             "Last name can only contain letters, spaces, hyphens, and apostrophes".data)])) ++
  (match b.country with
   | none => []
   | some n =>
     let t := trimChars n
     if decide (2 ≤ t.length ∧ t.length ≤ 100) then []
     else [("country".data, "Country must be at least 2 characters".data)]) ++
  (match b.phone with
   | none => []
   | some p =>
     let t := trimChars p
     if decide (10 ≤ (t.filter Char.isDigit).length ∧
                (t.filter Char.isDigit).length ≤ 15) ∧ phoneRegexOk t = true then []
     else [("phone".data, "Please enter a valid phone number (10-15 digits)".data)]) ++
  (match b.gender with
   | none => []
   | some s =>
     if genders.contains s then []
     else [("gender".data,
            "Gender must be one of: Male, Female, Non-binary, Prefer not to say, Other".data)]) ++
  (match b.dob with
   | none => []
   | some dt =>
     if dobAgeOk today dt then []
     else [("dob".data, "Age must be between 18 and 100 years".data)]) ++
  (match b.totalExperience with
   | none => []
   | some v =>
     (if decide (0 ≤ v ∧ v ≤ 50) then []
      else [("totalExperience".data, "Experience cannot be negative".data)]) ++
     (if oneDecimal v then []
      else [("totalExperience".data,
             "Experience must have at most 1 decimal place".data)])) ++
  (match b.currentCTC with
   | none => []
   | some v =>
     if decide (0 ≤ v ∧ v ≤ 10000000) then []
     else [("currentCTC".data, "Current CTC cannot be negative".data)]) ++
  (match b.expectedCTC with
   | none => []
   | some v =>
     (if decide (0 ≤ v ∧ v ≤ 10000000) then []
      else [("expectedCTC".data, "Expected CTC cannot be negative".data)]) ++
     -- `value >= this.currentCTC` with `this.currentCTC` undefined: every
     -- JS comparison against undefined is false, so this always errors
     [("expectedCTC".data,
       "Expected CTC must be greater than or equal to current CTC".data)]) ++
  (match b.noticePeriod with
   | none => []
   | some s =>
     if s == "Yes".data || s == "No".data then []
     else [("noticePeriod".data, "Notice period must be either Yes or No".data)]) ++
  (match b.noticePeriodDays with
   | none => []
   | some v =>
     (if decide (0 ≤ v ∧ v ≤ 365) then []
      else [("noticePeriodDays".data, "Notice period days cannot be negative".data)])
     -- the custom validator compares `this.noticePeriod` (undefined on the
     -- update path) with 'Yes'; `undefined === 'Yes'` is false, so it passes
     ) ++
  (match b.bio with
   | none => []
   | some s =>
     if decide ((trimChars s).length ≤ 500) then []
     else [("bio".data, "Bio cannot exceed 500 characters".data)]) ++
  (match b.experience with
   | none => []
   | some s =>
     if decide ((trimChars s).length ≤ 1000) then []
     else [("experience".data,
            "Experience description cannot exceed 1000 characters".data)])

/-- Applying the allow-listed update paths to the stored document
(`allowedFields.forEach(...)` feeding `findByIdAndUpdate`), with schema
setters (trim) applied on cast.  `email` and `password` are not in
`allowedFields` and are never copied. -/
def applyUpdates (u : UserRecord) (b : UpdateBody) : UserRecord where
  id := u.id
  name := (b.name.map trimChars).getD u.name
  email := u.email
  password := u.password
  designation := b.designation.getD u.designation
  firstName := (b.firstName.map trimChars).getD u.firstName
  lastName := (b.lastName.map trimChars).getD u.lastName
  country := (b.country.map trimChars).getD u.country
  phone := (b.phone.map trimChars).getD u.phone
  gender := b.gender.getD u.gender
  dob := b.dob.getD u.dob
  totalExperience := b.totalExperience.getD u.totalExperience
  currentCTC := b.currentCTC.getD u.currentCTC
  expectedCTC := b.expectedCTC.getD u.expectedCTC
  noticePeriod := b.noticePeriod.getD u.noticePeriod
  noticePeriodDays :=
    match b.noticePeriodDays with
    | some v => some v
    | none => u.noticePeriodDays
  bio :=
    match b.bio with
    | some s => some (trimChars s)
    | none => u.bio
  skills := (b.skills.map (List.map trimChars)).getD u.skills
  experience :=
    match b.experience with
    | some s => some (trimChars s)
    | none => u.experience
  resumeUrl :=
    match b.resumeUrl with
    | some s => some (trimChars s)
    | none => u.resumeUrl
  avatar :=
    match b.avatar with
    | some s => some (trimChars s)
    | none => u.avatar
  isEmailVerified := u.isEmailVerified

/-- The `updateProfile` controller: express validation (400 with field
errors), lookup (404), allow-listed update via `findByIdAndUpdate` with
update validators (a mongoose rejection lands in the catch block: 500),
then 200 with the updated record.  The defensive `User not found after
update` branch of the source is unreachable here because the document was
just found and `_id` is immutable. -/
def updateProfile (store : Store) (uid : Nat) (today : DateT)
    (b : UpdateBody) : ApiResponse × Store :=
  let errs := updateExpressErrors today b
  if errs.isEmpty then
    match findById store uid with
    | none => (errResponse 404 ("User not found".data), store)
    | some u =>
      if (updateValidatorErrors today b).isEmpty then
        let u2 := applyUpdates u b
        (⟨200, true, "Profile updated successfully".data, [],
          some (stripPassword u2), none⟩,
         store.map (fun v => if v.id = uid then u2 else v))
      else (errResponse 500 ("Server error updating profile".data), store)
  else (valResponse errs, store)

/-- The `deleteProfile` controller: lookup (404), then a success message with
no store mutation — the deletion is left unimplemented in the source. -/
def deleteProfile (store : Store) (uid : Nat) : ApiResponse × Store :=
  match findById store uid with
  | none => (errResponse 404 ("User not found".data), store)
  | some _ =>
    (⟨200, true,
      "Profile deletion request received. This feature can be implemented based on business requirements.".data,
      [], none, none⟩, store)

/-! ## Facts about the bcrypt model -/

/-- `takeWhile` up to the first `$` recovers a `$`-free salt. -/
theorem takeWhile_ne_dollar (salt pw : Str) (h : dollar ∉ salt) :
    (salt ++ dollar :: pw).takeWhile (fun c => c ≠ dollar) = salt := by
  induction salt with
  | nil =>
    rw [List.nil_append]
    exact List.takeWhile_cons_of_neg (by simp)
  | cons c cs ih =>
    have hc : c ≠ dollar := fun h2 => h (h2 ▸ List.mem_cons_self c cs)
    have hcs : dollar ∉ cs := fun hm => h (List.mem_cons_of_mem _ hm)
    rw [List.cons_append, List.takeWhile_cons_of_pos (by simp [hc]), ih hcs]

/-- The salt embedded in an idealized bcrypt hash is the hashing salt. -/
theorem bcryptSaltOf_hash (salt pw : Str) (h : dollar ∉ salt) :
    bcryptSaltOf (bcryptHash salt pw) = salt := by
  unfold bcryptSaltOf bcryptHash
  rw [List.append_assoc, List.drop_left]
  exact takeWhile_ne_dollar salt pw h

/-- A bcrypt hash is never the plaintext: it is strictly longer. -/
theorem bcryptHash_ne (salt pw : Str) : bcryptHash salt pw ≠ pw := by
  intro h
  have hlen := congrArg List.length h
  simp [bcryptHash, List.length_append, bcryptMagic] at hlen
  omega

/-- Correctness of the idealized compare: it accepts exactly the hashed
plaintext. -/
theorem bcryptCompare_hash (salt pw c : Str) (h : dollar ∉ salt) :
    bcryptCompare c (bcryptHash salt pw) = true ↔ c = pw := by
  unfold bcryptCompare
  rw [bcryptSaltOf_hash salt pw h, beq_iff_eq]
  unfold bcryptHash
  constructor
  · intro he
    have h1 := List.append_cancel_left he
    exact (List.cons.injEq _ _ _ _ ▸ h1).2.symm
  · intro he
    rw [he]

/-! ## Witness fixtures: a valid registration request and a stored record -/

/-- A concrete bcrypt salt (no `$`). -/
def saltW : Str := "abcdefgh".data

/-- A concrete current date. -/
def todayW : DateT := ⟨2026, 10, 11⟩

/-- A fully valid registration request. -/
def reqW : RegisterRequest where
  name := some ("John Doe".data)
  email := some ("john@example.com".data)
  password := some ("Passw0rd!".data)
  phone := some ("+1234567890".data)
  designation := some ("Mr".data)
  firstName := some ("John".data)
  lastName := some ("Doe".data)
  country := some ("India".data)
  gender := some ("Male".data)
  dob := some ⟨1990, 1, 1⟩
  totalExperience := some 5
  currentCTC := some 100
  expectedCTC := some 200
  noticePeriod := some ("No".data)
  noticePeriodDays := some 30
  bio := none
  skills := none
  experience := none
  resumeUrl := none
  avatar := none

/-- The stored record corresponding to `reqW`. -/
def uW : UserRecord where
  id := 1
  name := "John Doe".data
  email := "john@example.com".data
  password := bcryptHash saltW ("Passw0rd!".data)
  designation := "Mr".data
  firstName := "John".data
  lastName := "Doe".data
  country := "India".data
  phone := "+1234567890".data
  gender := "Male".data
  dob := ⟨1990, 1, 1⟩
  totalExperience := 5
  currentCTC := 100
  expectedCTC := 200
  noticePeriod := "No".data
  noticePeriodDays := some 30
  bio := none
  skills := []
  experience := none
  resumeUrl := none
  avatar := none
  isEmailVerified := false

/-! ## Claims -/

/-- C1: a request with a bearer token authenticates only when both the
signature/expiry check (`jwt.verify`) succeeds and the embedded user id still
resolves in the store; a token with a valid signature whose user has been
removed is answered 401 even before expiry. -/
theorem c1_authenticate_checks (store : Store) (secret : Str) (now : Nat)
    (t : TokenBits) :
    (∀ ou, authenticate store secret now (.bearer t) = .next ou →
      ∃ p v, jwtVerify secret now t = some p ∧
        findById store p.userId = some v ∧ ou = some (stripPassword v)) ∧
    (∀ p, jwtVerify secret now t = some p → findById store p.userId = none →
      authenticate store secret now (.bearer t) = .respond 401 msgUserNotFound) := by
  constructor
  · intro ou hou
    cases hv : jwtVerify secret now t with
    | none => simp [authenticate, hv] at hou
    | some p =>
      cases hf : findById store p.userId with
      | none => simp [authenticate, hv, hf] at hou
      | some v =>
        simp only [authenticate, hv, hf, MidResult.next.injEq] at hou
        exact ⟨p, v, rfl, hf, hou.symm⟩
  · intro p hp hf
    simp [authenticate, hp, hf]

/-- Witness for C1: a validly signed, unexpired token for user id 1 against an
empty store is rejected with 401. -/
theorem c1_witness :
    jwtVerify ("s".data) 5 (.signed ⟨1, "e".data, 0, 10⟩ ("s".data)) =
      some ⟨1, "e".data, 0, 10⟩ ∧
    authenticate [] ("s".data) 5
        (.bearer (.signed ⟨1, "e".data, 0, 10⟩ ("s".data))) =
      .respond 401 msgUserNotFound :=
  ⟨by decide,
   (c1_authenticate_checks [] ("s".data) 5
      (.signed ⟨1, "e".data, 0, 10⟩ ("s".data))).2
     ⟨1, "e".data, 0, 10⟩ (by decide) rfl⟩

/-- C4: a token issued at `T` with expiry duration `d` verifies at every time
in `[T, T+d)` and is rejected (401 through `authenticate`) at every time at or
after `T+d`. -/
theorem c4_token_expiry_window (uid : Nat) (email secret : Str)
    (T d now : Nat) (store : Store) :
    (T ≤ now → now < T + d →
      jwtVerify secret now (jwtSign uid email secret T d) =
        some ⟨uid, email, T, T + d⟩) ∧
    (T + d ≤ now →
      jwtVerify secret now (jwtSign uid email secret T d) = none ∧
      authenticate store secret now (.bearer (jwtSign uid email secret T d)) =
        .respond 401 msgTokenInvalid) := by
  constructor
  · intro _ h2
    simp [jwtSign, jwtVerify, h2]
  · intro h
    have hn : ¬ now < T + d := by omega
    exact ⟨by simp [jwtSign, jwtVerify, hn],
           by simp [authenticate, jwtSign, jwtVerify, hn]⟩

/-- Witness for C4: a token issued at 100 with duration 10 verifies at 105 and
is rejected at 110. -/
theorem c4_witness :
    jwtVerify ("s".data) 105 (jwtSign 1 ("e".data) ("s".data) 100 10) =
      some ⟨1, "e".data, 100, 110⟩ ∧
    (jwtVerify ("s".data) 110 (jwtSign 1 ("e".data) ("s".data) 100 10) = none ∧
     authenticate [] ("s".data) 110
         (.bearer (jwtSign 1 ("e".data) ("s".data) 100 10)) =
       .respond 401 msgTokenInvalid) :=
  ⟨(c4_token_expiry_window 1 ("e".data) ("s".data) 100 10 105 []).1
     (by decide) (by decide),
   (c4_token_expiry_window 1 ("e".data) ("s".data) 100 10 110 []).2 (by decide)⟩

/-- C9: an authenticated profile deletion for an existing caller answers 200
with the stub message and leaves the store completely unchanged. -/
theorem c9_delete_profile_stub (store : Store) (uid : Nat) (u : UserRecord)
    (h : findById store uid = some u) :
    deleteProfile store uid =
      (⟨200, true,
        "Profile deletion request received. This feature can be implemented based on business requirements.".data,
        [], none, none⟩, store) := by
  unfold deleteProfile
  rw [h]

/-- Witness for C9: deleting the stored profile of user 1 answers 200 and the
store still holds the record. -/
theorem c9_witness :
    deleteProfile [uW] 1 =
      (⟨200, true,
        "Profile deletion request received. This feature can be implemented based on business requirements.".data,
        [], none, none⟩, [uW]) :=
  c9_delete_profile_stub [uW] 1 uW rfl

/-- C10: `optionalAuth` never rejects: for every header shape it calls the
next handler exactly once and sends no response; an invalid or unresolvable
token just leaves the request without an identity. -/
theorem c10_optional_auth_always_next (store : Store) (secret : Str)
    (now : Nat) (h : AuthHeader) :
    (∃ ou, optionalAuth store secret now h = .next ou) ∧
    (∀ t, h = .bearer t → jwtVerify secret now t = none →
      optionalAuth store secret now h = .next none) ∧
    (∀ t p, h = .bearer t → jwtVerify secret now t = some p →
      findById store p.userId = none →
      optionalAuth store secret now h = .next none) := by
  refine ⟨?_, ?_, ?_⟩
  · cases h with
    | missing => exact ⟨none, rfl⟩
    | notBearer raw => exact ⟨none, rfl⟩
    | bearerEmpty => exact ⟨none, rfl⟩
    | bearer t =>
      cases hv : jwtVerify secret now t with
      | none => exact ⟨none, by simp [optionalAuth, hv]⟩
      | some p =>
        cases hf : findById store p.userId with
        | none => exact ⟨none, by simp [optionalAuth, hv, hf]⟩
        | some v =>
          exact ⟨some (stripPassword v), by simp [optionalAuth, hv, hf]⟩
  · intro t ht hv
    subst ht
    simp [optionalAuth, hv]
  · intro t p ht hp hf
    subst ht
    simp [optionalAuth, hp, hf]

/-- Witness for C10: a malformed bearer token still reaches the next handler,
with no identity attached. -/
theorem c10_witness :
    optionalAuth [] ("s".data) 0 (.bearer (.malformed ("x".data))) = .next none :=
  (c10_optional_auth_always_next [] ("s".data) 0
      (.bearer (.malformed ("x".data)))).2.1 (.malformed ("x".data)) rfl rfl

/-- C2: a successful registration stores as `password` the bcrypt hash of the
submitted plaintext, which is never the plaintext itself, and
`comparePassword` accepts exactly the original plaintext and returns `false`
for every other candidate. -/
theorem c2_register_password_hashed (store : Store) (freshId : Nat)
    (salt secret : Str) (expDur now : Nat) (today : DateT)
    (r : RegisterRequest) (hsalt : dollar ∉ salt)
    (h201 : (register store freshId salt secret expDur now today r).1.status = 201) :
    ∃ u, (register store freshId salt secret expDur now today r).2 = store ++ [u] ∧
      u.password = bcryptHash salt (r.password.getD []) ∧
      u.password ≠ r.password.getD [] ∧
      (∀ c, comparePassword u c = true ↔ c = r.password.getD []) := by
  by_cases hE : (registerExpressErrors r).isEmpty
  · cases hF : findOne store (lowerChars (r.email.getD [])) with
    | some u0 => simp [register, hE, hF, errResponse] at h201
    | none =>
      by_cases hV : (validateDoc today (buildDoc r)).isEmpty
      · refine ⟨mkUser freshId salt (buildDoc r), ?_, rfl, bcryptHash_ne _ _, ?_⟩
        · simp [register, hE, hF, hV]
        · intro c
          exact bcryptCompare_hash salt (r.password.getD []) c hsalt
      · simp [register, hE, hF, hV, errResponse] at h201
  · simp [register, hE, valResponse] at h201

/-- Witness for C2: the concrete registration `reqW` succeeds and its stored
record satisfies the hash and compare properties. -/
theorem c2_witness :
    ∃ u, (register [] 1 saltW ("s".data) 604800 1000 todayW reqW).2 = [] ++ [u] ∧
      u.password = bcryptHash saltW (reqW.password.getD []) ∧
      u.password ≠ reqW.password.getD [] ∧
      (∀ c, comparePassword u c = true ↔ c = reqW.password.getD []) :=
  c2_register_password_hashed [] 1 saltW ("s".data) 604800 1000 todayW reqW
    (by decide) (by decide)

/-- C3: re-registering an existing e-mail is refused and creates no record —
but the code answers HTTP 400 with `User with this email already exists`, not
the 409 Conflict promised by the API documentation.  The store keeps exactly
one record for this e-mail. -/
theorem c3_duplicate_email_answers_400 :
    register [uW] 2 saltW ("s".data) 604800 1000 todayW reqW =
      (errResponse 400 ("User with this email already exists".data), [uW]) ∧
    ((register [uW] 2 saltW ("s".data) 604800 1000 todayW reqW).2.filter
      (fun u => u.email == "john@example.com".data)).length = 1 := by
  constructor
  · decide
  · decide

/-- C5: a profile update applies only allow-listed fields: the response and
the resulting store are identical whether or not the body carries `email` or
`password` values, and no update ever changes any stored record's id, e-mail
or password hash. -/
theorem c5_update_allow_list (store : Store) (uid : Nat) (today : DateT)
    (b : UpdateBody) (hids : (store.map (fun u => u.id)).Nodup) :
    updateProfile store uid today b =
      updateProfile store uid today { b with email := none, password := none } ∧
    (updateProfile store uid today b).2.map
        (fun u => (u.id, u.email, u.password)) =
      store.map (fun u => (u.id, u.email, u.password)) := by
  constructor
  · rfl
  · by_cases hE : (updateExpressErrors today b).isEmpty
    · cases hF : findById store uid with
      | none => simp [updateProfile, hE, hF]
      | some u =>
        by_cases hV : (updateValidatorErrors today b).isEmpty
        · have hu_mem : u ∈ store := List.mem_of_find?_eq_some hF
          have hu_id : u.id = uid := by
            have := List.find?_some hF
            simpa using this
          simp only [updateProfile, hE, hF, hV, if_true]
          rw [List.map_map]
          apply List.map_congr_left
          intro v hv
          by_cases hvid : v.id = uid
          · have hvu : v = u :=
              List.inj_on_of_nodup_map hids hv hu_mem (by rw [hvid, hu_id])
            subst hvu
            simp [hvid, applyUpdates]
          · simp [hvid]
        · simp [updateProfile, hE, hF, hV]
    · simp [updateProfile, hE]

/-- An update body carrying the disallowed fields `email` and `password` plus
one allowed field. -/
def bW : UpdateBody where
  name := none
  designation := none
  firstName := none
  lastName := none
  country := none
  phone := none
  gender := none
  dob := none
  totalExperience := none
  currentCTC := none
  expectedCTC := none
  noticePeriod := none
  noticePeriodDays := none
  bio := some ("hello".data)
  skills := none
  experience := none
  resumeUrl := none
  avatar := none
  email := some ("evil@example.com".data)
  password := some ("Hacked1!".data)

/-- An update body raising only `currentCTC` above the stored
`expectedCTC`. -/
def bCTCW : UpdateBody where
  name := none
  designation := none
  firstName := none
  lastName := none
  country := none
  phone := none
  gender := none
  dob := none
  totalExperience := none
  currentCTC := some 1000
  expectedCTC := none
  noticePeriod := none
  noticePeriodDays := none
  bio := none
  skills := none
  experience := none
  resumeUrl := none
  avatar := none
  email := none
  password := none

/-- An update body setting `noticePeriod` to Yes without
`noticePeriodDays`. -/
def bNPW : UpdateBody where
  name := none
  designation := none
  firstName := none
  lastName := none
  country := none
  phone := none
  gender := none
  dob := none
  totalExperience := none
  currentCTC := none
  expectedCTC := none
  noticePeriod := some ("Yes".data)
  noticePeriodDays := none
  bio := none
  skills := none
  experience := none
  resumeUrl := none
  avatar := none
  email := none
  password := none

/-- An update body carrying both CTC fields with `expectedCTC` below
`currentCTC`. -/
def bBadW : UpdateBody where
  name := none
  designation := none
  firstName := none
  lastName := none
  country := none
  phone := none
  gender := none
  dob := none
  totalExperience := none
  currentCTC := some 100
  expectedCTC := some 50
  noticePeriod := none
  noticePeriodDays := none
  bio := none
  skills := none
  experience := none
  resumeUrl := none
  avatar := none
  email := none
  password := none

/-- The stored record `uW` without `noticePeriodDays`. -/
def uNPW : UserRecord := { uW with noticePeriodDays := none }

/-- `reqW` with `expectedCTC` below `currentCTC`. -/
def reqBadW : RegisterRequest := { reqW with expectedCTC := some 50 }

/-- `reqW` with `noticePeriod` Yes and no `noticePeriodDays`. -/
def reqYesW : RegisterRequest :=
  { reqW with noticePeriod := some ("Yes".data), noticePeriodDays := none }

/-- Witness for C5: an update carrying `email`, `password` and a `bio` behaves
exactly like the same update without `email`/`password`, and the stored id,
e-mail and password hash are unchanged. -/
theorem c5_witness :
    updateProfile [uW] 1 todayW bW =
      updateProfile [uW] 1 todayW { bW with email := none, password := none } ∧
    (updateProfile [uW] 1 todayW bW).2.map
        (fun u => (u.id, u.email, u.password)) =
      [uW].map (fun u => (u.id, u.email, u.password)) :=
  c5_update_allow_list [uW] 1 todayW bW (by decide)

/-- Counterexample for C6: an update that supplies only `currentCTC` (1000) on
a record with `expectedCTC` 200 succeeds with 200 and leaves the store with
`expectedCTC < currentCTC`, refuting the invariant-preservation part of the
claim. -/
theorem c6_counterexample :
    (updateProfile [uW] 1 todayW bCTCW).1.status = 200 ∧
    (updateProfile [uW] 1 todayW bCTCW).2 = [applyUpdates uW bCTCW] ∧
    (applyUpdates uW bCTCW).expectedCTC < (applyUpdates uW bCTCW).currentCTC :=
  ⟨by decide, by decide, by decide⟩

/-- C6 (amended): when both CTC values come from the same request,
`expectedCTC < currentCTC` is rejected with an error attributed to the
`expectedCTC` field — at registration as a document-validation failure (the
controller surfaces a generic 500 and stores nothing), at profile update as a
400 with a field error; an update supplying only `currentCTC` is not checked
against the stored `expectedCTC` (see the counterexample), so the stored
invariant can break. -/
theorem c6_expected_ctc_amended :
    (∀ (store : Store) (freshId : Nat) (salt secret : Str) (expDur now : Nat)
       (today : DateT) (r : RegisterRequest) (e c : Rat),
       r.expectedCTC = some e → r.currentCTC = some c → e < c →
       (registerExpressErrors r).isEmpty = true →
       findOne store (lowerChars (r.email.getD [])) = none →
       ("expectedCTC".data,
        "Expected CTC must be greater than or equal to current CTC".data) ∈
          validateDoc today (buildDoc r) ∧
       register store freshId salt secret expDur now today r =
         (errResponse 500 ("Server error during registration".data), store)) ∧
    (∀ (store : Store) (uid : Nat) (today : DateT) (b : UpdateBody) (e c : Rat),
       b.expectedCTC = some e → b.currentCTC = some c → e < c →
       (updateProfile store uid today b).1.status = 400 ∧
       ("expectedCTC".data,
        "Expected CTC must be greater than or equal to current CTC".data) ∈
         (updateProfile store uid today b).1.errors ∧
       (updateProfile store uid today b).2 = store) := by
  constructor
  · intro store freshId salt secret expDur now today r e c he hc hlt hE hF
    have hbe : (buildDoc r).expectedCTC = some e := he
    have hbc : (buildDoc r).currentCTC = some c := hc
    have hmem : ("expectedCTC".data,
        "Expected CTC must be greater than or equal to current CTC".data) ∈
        validateDoc today (buildDoc r) := by
      unfold validateDoc
      apply List.mem_append_left
      apply List.mem_append_left
      apply List.mem_append_left
      apply List.mem_append_left
      apply List.mem_append_right
      rw [hbe, hbc]
      have hnle : ¬ (c ≤ e) := not_le.mpr hlt
      simp [hnle]
    refine ⟨hmem, ?_⟩
    have hV : (validateDoc today (buildDoc r)).isEmpty = false := by
      cases hL : validateDoc today (buildDoc r) with
      | nil => rw [hL] at hmem; exact absurd hmem (List.not_mem_nil _)
      | cons a l => rfl
    simp [register, hE, hF, hV]
  · intro store uid today b e c hbe hbc hlt
    have hmem : ("expectedCTC".data,
        "Expected CTC must be greater than or equal to current CTC".data) ∈
        updateExpressErrors today b := by
      unfold updateExpressErrors
      apply List.mem_append_left
      apply List.mem_append_left
      apply List.mem_append_left
      apply List.mem_append_left
      apply List.mem_append_left
      apply List.mem_append_right
      rw [hbe, hbc]
      simp [hlt]
    have hE : (updateExpressErrors today b).isEmpty = false := by
      cases hL : updateExpressErrors today b with
      | nil => rw [hL] at hmem; exact absurd hmem (List.not_mem_nil _)
      | cons a l => rfl
    refine ⟨by simp [updateProfile, hE, valResponse], ?_,
            by simp [updateProfile, hE]⟩
    simp only [updateProfile, hE]
    simpa [valResponse] using hmem

/-- Witness for C6 (amended): a registration with expectedCTC 50 below
currentCTC 100 fails document validation on `expectedCTC` and answers 500; an
update carrying both values answers 400 with the `expectedCTC` field error and
leaves the store unchanged. -/
theorem c6_witness :
    (("expectedCTC".data,
      "Expected CTC must be greater than or equal to current CTC".data) ∈
       validateDoc todayW (buildDoc reqBadW) ∧
     register [] 1 saltW ("s".data) 604800 1000 todayW reqBadW =
       (errResponse 500 ("Server error during registration".data), [])) ∧
    ((updateProfile [uW] 1 todayW bBadW).1.status = 400 ∧
     ("expectedCTC".data,
      "Expected CTC must be greater than or equal to current CTC".data) ∈
       (updateProfile [uW] 1 todayW bBadW).1.errors ∧
     (updateProfile [uW] 1 todayW bBadW).2 = [uW]) :=
  ⟨c6_expected_ctc_amended.1 [] 1 saltW ("s".data) 604800 1000 todayW reqBadW
     50 100 rfl rfl (by decide) (by decide) rfl,
   c6_expected_ctc_amended.2 [uW] 1 todayW bBadW 50 100 rfl rfl (by decide)⟩

/-- A `PUT /profile` body carrying exactly `noticePeriod: "No"` and a
`noticePeriodDays` value. -/
def bNoDays (v : Rat) : UpdateBody where
  name := none
  designation := none
  firstName := none
  lastName := none
  country := none
  phone := none
  gender := none
  dob := none
  totalExperience := none
  currentCTC := none
  expectedCTC := none
  noticePeriod := some ("No".data)
  noticePeriodDays := some v
  bio := none
  skills := none
  experience := none
  resumeUrl := none
  avatar := none
  email := none
  password := none

/-- Counterexample for C7: a profile update setting `noticePeriod` to Yes with
`noticePeriodDays` absent is accepted with 200 (the `.optional()` chain never
runs on an absent field, and update validators only run on updated paths), and
the stored record ends with noticePeriod Yes and no noticePeriodDays. -/
theorem c7_counterexample :
    (updateProfile [uNPW] 1 todayW bNPW).1.status = 200 ∧
    (updateProfile [uNPW] 1 todayW bNPW).2 = [applyUpdates uNPW bNPW] ∧
    (applyUpdates uNPW bNPW).noticePeriod = "Yes".data ∧
    (applyUpdates uNPW bNPW).noticePeriodDays = none :=
  ⟨by decide, by decide, by decide, by decide⟩

/-- C7 (amended): at registration, noticePeriod Yes with noticePeriodDays
absent fails document validation on the `noticePeriodDays` path (the
controller surfaces a generic 500 and stores nothing), while noticePeriod No
with noticePeriodDays present in 0..365 contributes no error on the
noticePeriod or noticePeriodDays paths; at profile update, a body with
noticePeriod No and an integral noticePeriodDays in 0..365 is accepted (200)
and applied, but the conditional requirement is not enforced there: a body
setting noticePeriod Yes without days is also accepted (200) and stored. -/
theorem c7_notice_period_amended :
    (∀ (store : Store) (freshId : Nat) (salt secret : Str) (expDur now : Nat)
       (today : DateT) (r : RegisterRequest),
       r.noticePeriod = some ("Yes".data) → r.noticePeriodDays = none →
       (registerExpressErrors r).isEmpty = true →
       findOne store (lowerChars (r.email.getD [])) = none →
       ("noticePeriodDays".data, "Path `noticePeriodDays` is required.".data) ∈
         validateDoc today (buildDoc r) ∧
       register store freshId salt secret expDur now today r =
         (errResponse 500 ("Server error during registration".data), store)) ∧
    (∀ v : Rat, 0 ≤ v → v ≤ 365 →
       noticePeriodPathErrs (some ("No".data)) = [] ∧
       noticePeriodDaysPathErrs (some ("No".data)) (some v) = []) ∧
    (∀ (store : Store) (uid : Nat) (today : DateT) (u : UserRecord) (v : Rat),
       v.den = 1 → 0 ≤ v → v ≤ 365 →
       findById store uid = some u →
       (updateProfile store uid today (bNoDays v)).1.status = 200 ∧
       (updateProfile store uid today (bNoDays v)).2 =
         store.map (fun v2 =>
           if v2.id = uid then applyUpdates u (bNoDays v) else v2) ∧
       (applyUpdates u (bNoDays v)).noticePeriod = "No".data ∧
       (applyUpdates u (bNoDays v)).noticePeriodDays = some v) ∧
    (∀ (store : Store) (uid : Nat) (today : DateT) (b : UpdateBody)
       (u : UserRecord),
       b.noticePeriod = some ("Yes".data) → b.noticePeriodDays = none →
       (updateExpressErrors today b).isEmpty = true →
       (updateValidatorErrors today b).isEmpty = true →
       findById store uid = some u →
       (updateProfile store uid today b).1.status = 200 ∧
       (updateProfile store uid today b).2 =
         store.map (fun v2 => if v2.id = uid then applyUpdates u b else v2) ∧
       (applyUpdates u b).noticePeriod = "Yes".data ∧
       (applyUpdates u b).noticePeriodDays = u.noticePeriodDays) := by
  refine ⟨?_, ?_, ?_, ?_⟩
  · intro store freshId salt secret expDur now today r hnp hnpd hE hF
    have hbnp : (buildDoc r).noticePeriod = some ("Yes".data) := hnp
    have hbnpd : (buildDoc r).noticePeriodDays = none := hnpd
    have hmem : ("noticePeriodDays".data,
        "Path `noticePeriodDays` is required.".data) ∈
        validateDoc today (buildDoc r) := by
      unfold validateDoc
      apply List.mem_append_left
      apply List.mem_append_left
      apply List.mem_append_right
      rw [hbnp, hbnpd]
      simp [noticePeriodDaysPathErrs]
    refine ⟨hmem, ?_⟩
    have hV : (validateDoc today (buildDoc r)).isEmpty = false := by
      cases hL : validateDoc today (buildDoc r) with
      | nil => rw [hL] at hmem; exact absurd hmem (List.not_mem_nil _)
      | cons a l => rfl
    simp [register, hE, hF, hV]
  · intro v h0 h365
    refine ⟨by decide, ?_⟩
    simp [noticePeriodDaysPathErrs, h0, h365]
  · intro store uid today u v hden h0 h365 hF
    have hE : (updateExpressErrors today (bNoDays v)).isEmpty = true := by
      simp [updateExpressErrors, bNoDays, noticePeriodDaysCustomErr,
            hden, h0, h365]
    have hV : (updateValidatorErrors today (bNoDays v)).isEmpty = true := by
      simp [updateValidatorErrors, bNoDays, h0, h365]
    refine ⟨?_, ?_, ?_, ?_⟩
    · simp [updateProfile, hE, hF, hV]
    · simp [updateProfile, hE, hF, hV]
    · simp [applyUpdates, bNoDays]
    · simp [applyUpdates, bNoDays]
  · intro store uid today b u hbnp hbnpd hE hV hF
    refine ⟨?_, ?_, ?_, ?_⟩
    · simp [updateProfile, hE, hF, hV]
    · simp [updateProfile, hE, hF, hV]
    · simp [applyUpdates, hbnp]
    · simp [applyUpdates, hbnpd]

/-- Witness for C7 (amended): the Yes-without-days registration fails with the
`noticePeriodDays` error and a 500; noticePeriod No with 30 days contributes
no error (and the full registration `reqW` with exactly those values answers
201); the No-with-30-days profile update is accepted with 200 and applied;
the Yes-without-days update is also accepted with 200. -/
theorem c7_witness :
    (("noticePeriodDays".data, "Path `noticePeriodDays` is required.".data) ∈
       validateDoc todayW (buildDoc reqYesW) ∧
     register [] 1 saltW ("s".data) 604800 1000 todayW reqYesW =
       (errResponse 500 ("Server error during registration".data), [])) ∧
    (noticePeriodPathErrs (some ("No".data)) = [] ∧
     noticePeriodDaysPathErrs (some ("No".data)) (some 30) = []) ∧
    ((updateProfile [uW] 1 todayW (bNoDays 30)).1.status = 200 ∧
     (updateProfile [uW] 1 todayW (bNoDays 30)).2 =
       [uW].map (fun v2 =>
         if v2.id = 1 then applyUpdates uW (bNoDays 30) else v2) ∧
     (applyUpdates uW (bNoDays 30)).noticePeriod = "No".data ∧
     (applyUpdates uW (bNoDays 30)).noticePeriodDays = some 30) ∧
    ((updateProfile [uNPW] 1 todayW bNPW).1.status = 200 ∧
     (updateProfile [uNPW] 1 todayW bNPW).2 =
       [uNPW].map (fun v2 => if v2.id = 1 then applyUpdates uNPW bNPW else v2) ∧
     (applyUpdates uNPW bNPW).noticePeriod = "Yes".data ∧
     (applyUpdates uNPW bNPW).noticePeriodDays = uNPW.noticePeriodDays) ∧
    (register [] 1 saltW ("s".data) 604800 1000 todayW reqW).1.status = 201 :=
  ⟨c7_notice_period_amended.1 [] 1 saltW ("s".data) 604800 1000 todayW reqYesW
     rfl rfl (by decide) rfl,
   c7_notice_period_amended.2.1 30 (by decide) (by decide),
   c7_notice_period_amended.2.2.1 [uW] 1 todayW uW 30
     (by decide) (by decide) (by decide) (by decide),
   c7_notice_period_amended.2.2.2 [uNPW] 1 todayW bNPW uNPW rfl rfl
     (by decide) (by decide) (by decide),
   by decide⟩

/-- C8: login failures do not reveal whether the e-mail exists: for the same
request, a store without the e-mail and a store holding the e-mail with a
non-matching password produce identical responses; when the request passes
validation that response is the generic 401. -/
theorem c8_login_indistinguishable (r : LoginRequest) (s1 s2 : Store)
    (u : UserRecord) (secret : Str) (expDur now : Nat)
    (h1 : findOne s1 (lowerChars (r.email.getD [])) = none)
    (h2 : findOne s2 (lowerChars (r.email.getD [])) = some u)
    (h3 : comparePassword u (trimChars (r.password.getD [])) = false) :
    login s1 secret expDur now r = login s2 secret expDur now r ∧
    ((loginExpressErrors r).isEmpty = true →
      login s1 secret expDur now r =
        errResponse 401 ("Invalid email or password".data)) := by
  constructor
  · by_cases hE : (loginExpressErrors r).isEmpty
    · simp [login, hE, h1, h2, h3]
    · simp [login, hE]
  · intro hE
    simp [login, hE, h1]

/-- Witness for C8: against an empty store and against a store holding the
account with a wrong password, the same login request gets the same generic
401. -/
theorem c8_witness :
    login [] ("s".data) 604800 1000
        ⟨some ("john@example.com".data), some ("WrongPass1!".data)⟩ =
      login [uW] ("s".data) 604800 1000
        ⟨some ("john@example.com".data), some ("WrongPass1!".data)⟩ ∧
    ((loginExpressErrors
        ⟨some ("john@example.com".data), some ("WrongPass1!".data)⟩).isEmpty = true →
      login [] ("s".data) 604800 1000
          ⟨some ("john@example.com".data), some ("WrongPass1!".data)⟩ =
        errResponse 401 ("Invalid email or password".data)) :=
  c8_login_indistinguishable
    ⟨some ("john@example.com".data), some ("WrongPass1!".data)⟩ [] [uW] uW
    ("s".data) 604800 1000 rfl (by decide) (by decide)
